import Mathlib

/-!
Shallow embedding of the provisioning orchestrator in `src/main.py`
(a personal-machine bootstrap tool), together with theorems settling
the specification claims about it.

The embedding follows the source:
* `splitChar` models Python `str.split(sep)` for a one-character
  separator (as used by `pathlib`).
* `pposixRoot`, `pposixSegs`, `pposixParts`, `pposixStr` model
  `PurePosixPath(...).parts` and `str(PurePosixPath(...))`
  (root detection as in `posixpath.splitroot`; empty and `"."`
  components are dropped).
* `urlsplitPath` models `urllib.parse.urlsplit(url).path`.
* `resolveTagFromParts` / `resolveTagFromPath` / `resolveTagFromUrl`
  model the tag-resolution `match` in `_install_mise`; `installMise`
  models the whole routine, with the network and the running platform
  as external inputs and the issued requests recorded in order.
* `Ambient`, `expanduserTilde`, `prepareCleanEnv` model
  `_prepare_clean_env` over an explicit ambient environment
  (`os.path.expanduser` semantics from `posixpath.expanduser`).
* `checkCall` models `_check_call` (`subprocess.run(..., check=True)`),
  with the child's exit status as an external input.
* `ensureArgument` models `_ensure_argument`; `Config` mirrors the
  `Config` TypedDict; `mainTrace` models the sequence of
  `_check_call` invocations issued by the `main` task.
-/

deriving instance DecidableEq for Except

namespace SetupUbuntu

/-- Python `str.split(c)`: split a character list at every occurrence of
`c`, keeping empty chunks (`"".split(c) == ['']`). -/
def splitChar (c : Char) : List Char → List (List Char)
  | [] => [[]]
  | x :: xs =>
    if x = c then [] :: splitChar c xs
    else
      match splitChar c xs with
      | [] => [[x]]
      | r :: rs => (x :: r) :: rs

/-- `posixpath.splitroot`: the root of a POSIX path is `"//"` when the
path starts with exactly two slashes, `"/"` when it starts with one or
at least three, and absent otherwise.  Returned as a zero- or
one-element list, matching the leading entry of `PurePosixPath.parts`. -/
def pposixRoot (cs : List Char) : List String :=
  if cs.head? = some '/' then
    if (cs.drop 1).head? = some '/' ∧ (cs.drop 2).head? ≠ some '/' then ["//"]
    else ["/"]
  else []

/-- A path component survives `PurePosixPath` parsing when it is
neither empty nor the single dot. -/
def keepSeg (l : List Char) : Bool := decide (l ≠ [] ∧ l ≠ ['.'])

/-- The non-root components of `PurePosixPath(p).parts`: split on `/`,
dropping empty components and `"."`. -/
def pposixSegs (p : String) : List String :=
  ((splitChar '/' p.data).filter keepSeg).map (fun l => String.mk l)

/-- `PurePosixPath(p).parts`: the root (if any) followed by the kept
components. -/
def pposixParts (p : String) : List String :=
  pposixRoot p.data ++ pposixSegs p

/-- `str(PurePosixPath(p))`: root plus `/`-joined components; the empty
relative path prints as `"."`. -/
def pposixStr (p : String) : String :=
  match pposixRoot p.data with
  | r :: _ => r ++ String.intercalate "/" (pposixSegs p)
  | [] =>
    if (pposixSegs p).isEmpty then "." else String.intercalate "/" (pposixSegs p)

/-- Characters allowed in a URL scheme after the first
(`urllib.parse.scheme_chars`): ASCII letters, digits, `+`, `-`, `.`. -/
def schemeChar (c : Char) : Bool :=
  c.isAlpha || c.isDigit || c = '+' || c = '-' || c = '.'

/-- The scheme-stripping step of `urllib.parse.urlsplit`: when the text
before the first `:` is a nonempty valid scheme starting with an ASCII
letter, drop it together with the colon. -/
def dropScheme (cs : List Char) : List Char :=
  match cs.dropWhile (fun c => c != ':') with
  | ':' :: rest =>
    match cs.takeWhile (fun c => c != ':') with
    | [] => cs
    | c0 :: pre => if c0.isAlpha && (c0 :: pre).all schemeChar then rest else cs
  | _ => cs

/-- The netloc-stripping step of `urlsplit`: after `//`, the network
location extends to the first `/`, `?` or `#`. -/
def dropNetloc (cs : List Char) : List Char :=
  match cs with
  | '/' :: '/' :: rest => rest.dropWhile (fun c => decide (c ≠ '/' ∧ c ≠ '?' ∧ c ≠ '#'))
  | _ => cs

/-- The path of `urlsplit`: what remains before the query/fragment
delimiters `?` and `#`. -/
def takePath (cs : List Char) : List Char :=
  cs.takeWhile (fun c => decide (c ≠ '?' ∧ c ≠ '#'))

/-- `urllib.parse.urlsplit(url).path`. -/
def urlsplitPath (url : String) : String :=
  String.mk (takePath (dropNetloc (dropScheme url.data)))

/-- The failure modes of `_install_mise` (each is a `raise ValueError`
in the source; the spec names them `ResolutionError` and
`UnsupportedPlatformError`). -/
inductive InstallError where
  | resolution (path : String)
  | unsupportedSystem (system : String)
  | unsupportedMachine (machine : String)
deriving DecidableEq, Repr

/-- Whether an error is one of the unsupported-platform failures. -/
def InstallError.isUnsupported : InstallError → Bool
  | .unsupportedSystem _ => true
  | .unsupportedMachine _ => true
  | .resolution _ => false

/-- The `match parts:` statement of `_install_mise`: succeed exactly on
six parts whose fourth and fifth entries are the literals `"releases"`
and `"tag"`, returning the sixth; otherwise `raise ValueError(path)`. -/
def resolveTagFromParts (parts : List String) (pathStr : String) :
    Except InstallError String :=
  match parts with
  | [_, _, _, "releases", "tag", t] => Except.ok t
  | _ => Except.error (InstallError.resolution pathStr)

/-- Tag resolution from a URL path: `PurePosixPath(path).parts` fed to
the `match`, the error carrying `str(PurePosixPath(path))`. -/
def resolveTagFromPath (path : String) : Except InstallError String :=
  resolveTagFromParts (pposixParts path) (pposixStr path)

/-- Tag resolution from the final resolved URL (`response.url`):
`urlsplit` extracts the path, which is then resolved. -/
def resolveTagFromUrl (resolvedUrl : String) : Except InstallError String :=
  resolveTagFromPath (urlsplitPath resolvedUrl)

/-- A URL path segment that `PurePosixPath` keeps verbatim: nonempty,
not `"."`, and containing no slash. -/
def validSeg (s : String) : Prop :=
  s.data ≠ [] ∧ s.data ≠ ['.'] ∧ '/' ∉ s.data

instance (s : String) : Decidable (validSeg s) := by
  unfold validSeg; infer_instance

/-- The `latest_release_url` constant of `_install_mise`. -/
def latestReleaseUrl : String := "https://github.com/jdx/mise/releases/latest"

/-- The `download_url` constant of `_install_mise`: the fixed
release-asset base path. -/
def releaseDownloadBase : String := "https://github.com/jdx/mise/releases/download"

/-- The `match uname.system:` statement: only `"Linux"` maps (to
`"linux"`); anything else raises. -/
def mapSystem (system : String) : Except InstallError String :=
  if system = "Linux" then Except.ok "linux"
  else Except.error (InstallError.unsupportedSystem system)

/-- The `match uname.machine:` statement: `"x86_64"` maps to `"x64"`,
`"aarch64"` to `"arm64"`; anything else raises. -/
def mapMachine (machine : String) : Except InstallError String :=
  if machine = "x86_64" then Except.ok "x64"
  else if machine = "aarch64" then Except.ok "arm64"
  else Except.error (InstallError.unsupportedMachine machine)

/-- The asset filename `f"mise-{tag}-{system}-{machine}.tar.gz"`. -/
def assetName (tag system machine : String) : String :=
  "mise-" ++ tag ++ "-" ++ system ++ "-" ++ machine ++ ".tar.gz"

/-- The tarball URL `f"{download_url}/{tag}/{name}"`. -/
def tarballUrlOf (tag nm : String) : String :=
  releaseDownloadBase ++ "/" ++ tag ++ "/" ++ nm

/-- The outputs of a successful `_install_mise` run: the resolved tag,
the constructed asset filename and download URL, and the copy steps
(source path relative to the scoped temporary directory, absolute
destination under the user's home). -/
structure InstallResult where
  tag : String
  asset : String
  url : String
  copies : List (String × String)
deriving DecidableEq, Repr

/-- An `_install_mise` run: the network requests issued (in order) and
the final result.  The final resolved URL of the latest-release
request, the platform facts `uname.system` / `uname.machine`, and the
home directory are external inputs. -/
structure InstallOutcome where
  requests : List String
  result : Except InstallError InstallResult
deriving DecidableEq, Repr

/-- `_install_mise`: request the latest-release redirect endpoint,
resolve the tag from the final URL, map platform facts, build the
asset URL, download it, extract, and copy binary and manual page.
Every failure aborts with the requests issued so far recorded. -/
def installMise (resolvedUrl system machine home : String) : InstallOutcome :=
  match resolveTagFromUrl resolvedUrl with
  | Except.error e => ⟨[latestReleaseUrl], Except.error e⟩
  | Except.ok tag =>
    match mapSystem system with
    | Except.error e => ⟨[latestReleaseUrl], Except.error e⟩
    | Except.ok sys =>
      match mapMachine machine with
      | Except.error e => ⟨[latestReleaseUrl], Except.error e⟩
      | Except.ok mach =>
        let nm := assetName tag sys mach
        ⟨[latestReleaseUrl, tarballUrlOf tag nm],
         Except.ok ⟨tag, nm, tarballUrlOf tag nm,
           [("mise/bin/mise", home ++ "/.local/bin/mise"),
            ("mise/man/man1/mise.1", home ++ "/.local/share/man/man1/mise.1")]⟩⟩

/-- The ambient process environment `_prepare_clean_env` may read: the
`HOME` variable (if set), the password-database home directory used
when `HOME` is unset, the caller's `PATH`, and all other variables. -/
structure Ambient where
  envHome : Option String
  pwdHome : String
  envPath : Option String
  envOther : List (String × String)
deriving Repr

/-- The `userhome` of `posixpath.expanduser`: the `HOME` variable when
set, else the password-database entry. -/
def userhome (a : Ambient) : String := a.envHome.getD a.pwdHome

/-- Helper for `str.rstrip('/')`: drop leading slashes of the reversed
character list. -/
def rstripSlashAux : List Char → List Char
  | [] => []
  | c :: cs => if c = '/' then rstripSlashAux cs else c :: cs

/-- Python `s.rstrip('/')`. -/
def rstripSlash (s : String) : String :=
  String.mk (rstripSlashAux s.data.reverse).reverse

/-- `posixpath.expanduser("~" + suffix)` for the bare-tilde form used
by the source (`suffix` is empty or starts with `/`): the userhome is
stripped of trailing slashes, the suffix appended, and an empty result
falls back to `/`. -/
def expanduserTilde (a : Ambient) (suffix : String) : String :=
  if rstripSlash (userhome a) ++ suffix = "" then "/"
  else rstripSlash (userhome a) ++ suffix

/-- `os.defpath` on POSIX. -/
def defpath : String := ":/bin:/usr/bin"

/-- `os.pathsep` on POSIX. -/
def pathsep : String := ":"

/-- `_prepare_clean_env`: a fresh mapping holding exactly `PATH` (the
shim directory, the local-bin directory and `os.defpath`, joined with
`os.pathsep`) and `HOME` (the expanded home directory). -/
def prepareCleanEnv (a : Ambient) : List (String × String) :=
  [("PATH", String.intercalate pathsep
      [expanduserTilde a "/.local/share/mise/shims",
       expanduserTilde a "/.local/bin",
       defpath]),
   ("HOME", expanduserTilde a "")]

/-- `subprocess.CalledProcessError` as raised by
`subprocess.run(args, check=True)`: the command and its exit status. -/
structure CommandError where
  command : List String
  exitStatus : Int
deriving DecidableEq, Repr

/-- The display mark of `_check_call`'s echo line: `#` for the
superuser, `$` otherwise. -/
def promptMark (euid : Nat) : String := if euid = 0 then "#" else "$"

/-- `_check_call` (echo aside, which is output only): run the command
with the given environment and raise exactly when the child's exit
status is non-zero.  The exit status of the child process is an
external input. -/
def checkCall (args : List String) (env : List (String × String))
    (exitStatus : Int) : Except CommandError Unit :=
  if exitStatus = 0 then Except.ok ()
  else Except.error ⟨args, exitStatus⟩

/-- The structured `_Argument` TypedDict: install options plus the
operand. -/
structure Argument where
  operand : String
  options : List String
deriving DecidableEq, Repr

/-- A `uv_tool` config entry: a bare string or a structured argument
(`str | _Argument`). -/
inductive StrOrArgument where
  | str (s : String)
  | arg (a : Argument)
deriving DecidableEq, Repr

/-- `_ensure_argument`: wrap a bare string as an argument with empty
options; pass a structured argument through unchanged. -/
def ensureArgument : StrOrArgument → Argument
  | .str s => ⟨s, []⟩
  | .arg a => a

/-- The `Config` TypedDict, field for field. -/
structure Config where
  apt : List String
  snap : List String
  snap_classic : List String
  mise_core : List String
  mise : List String
  uv_python : List String
  uv_tool : List StrOrArgument
  docker_apt : List String
  docker_image : List String
  setup : List String
deriving DecidableEq, Repr

/-- The `uv tool install` invocation built for one `uv_tool` entry:
options, then the end-of-options marker `--`, then the operand. -/
def uvToolCmd (item : StrOrArgument) : List String :=
  ["uv", "tool", "install"] ++ (ensureArgument item).options
    ++ ["--", (ensureArgument item).operand]

/-- The ordered `_check_call` invocations issued by the `main` task,
assuming every command succeeds.  `pyExe` is `sys.executable`,
`selfPath` is `__file__`, `user` is `getpass.getuser()`;
`needDocker` / `needMise` record whether `shutil.which` failed to
resolve `docker` / `mise` on the clean `PATH`. -/
def mainTrace (pyExe selfPath user : String) (cfg : Config)
    (needDocker needMise : Bool) : List (List String) :=
  [[pyExe, selfPath, "prepare_dotfiles"]]
  ++ (if needDocker then [["sudo", pyExe, selfPath, "prepare_docker"]] else [])
  ++ [["sudo", "apt-get", "update"]]
  ++ [["sudo", "apt-get", "-y", "dist-upgrade"]]
  ++ (if (cfg.apt ++ (if needDocker then cfg.docker_apt else [])).isEmpty then []
      else [["sudo", "apt-get", "-y", "install", "--"]
        ++ (cfg.apt ++ (if needDocker then cfg.docker_apt else []))])
  ++ (if needDocker then [["sudo", "usermod", "-aG", "docker", user]] else [])
  ++ [["sudo", "apt-get", "-y", "autopurge"]]
  ++ [["sudo", "apt-get", "-y", "autoclean"]]
  ++ [["sudo", "snap", "refresh"]]
  ++ (if cfg.snap.isEmpty then []
      else [["sudo", "snap", "install", "--"] ++ cfg.snap])
  ++ (cfg.snap_classic.map fun operand =>
      ["sudo", "snap", "install", "--classic", "--", operand])
  ++ (if needMise then [[pyExe, selfPath, "install_mise"]]
      else [["mise", "self-update", "-y"], ["mise", "upgrade", "--bump"]])
  ++ (if cfg.mise_core.isEmpty then []
      else [["mise", "use", "-g", "--"] ++ cfg.mise_core])
  ++ (if cfg.mise.isEmpty then []
      else [["mise", "use", "-g", "--"] ++ cfg.mise])
  ++ [["uv", "python", "upgrade"]]
  ++ (if cfg.uv_python.isEmpty then []
      else [["uv", "python", "install", "--"] ++ cfg.uv_python])
  ++ [["uv", "tool", "upgrade", "--all"]]
  ++ (cfg.uv_tool.map uvToolCmd)
  ++ (cfg.docker_image.map fun operand => ["sudo", "docker", "pull", "--", operand])
  ++ (cfg.setup.map fun command => ["/bin/sh", "-c", command])

/-- The configuration in which every list is empty. -/
def emptyConfig : Config := ⟨[], [], [], [], [], [], [], [], [], []⟩

/-- Modelled from the spec: the five command invocations that claim C4
says are the only ones executed in its scenario — package index
refresh, full upgrade, autopurge, autoclean, and the store-package
refresh. -/
def c4Allowed : List (List String) :=
  [["sudo", "apt-get", "update"],
   ["sudo", "apt-get", "-y", "dist-upgrade"],
   ["sudo", "apt-get", "-y", "autopurge"],
   ["sudo", "apt-get", "-y", "autoclean"],
   ["sudo", "snap", "refresh"]]

/-- A configuration whose only content is the structured `uv_tool`
entry of end-to-end scenario 4. -/
def ruffConfig : Config :=
  ⟨[], [], [], [], [], [],
   [StrOrArgument.arg ⟨"ruff", ["--python", "3.12"]⟩], [], [], []⟩

/-- A concrete ambient environment with `HOME` set and a populated
caller `PATH`. -/
def ambientA : Ambient :=
  ⟨some "/home/user", "/root", some "/usr/games:/opt/weird/bin", [("LANG", "C.UTF-8")]⟩

/-- A concrete ambient environment with `HOME` unset, whose
password-database home resolves like `ambientA`'s (up to a trailing
slash), and with no caller `PATH`. -/
def ambientB : Ambient :=
  ⟨none, "/home/user/", none, []⟩

/-! ### Lemmas about `splitChar` and path parsing -/

theorem splitChar_of_not_mem {c : Char} {xs : List Char} (h : c ∉ xs) :
    splitChar c xs = [xs] := by
  induction xs with
  | nil => rfl
  | cons x xs ih =>
    have hx : ¬ x = c := fun e => h (e ▸ List.mem_cons_self x xs)
    have hxs : c ∉ xs := fun hm => h (List.mem_cons_of_mem _ hm)
    simp [splitChar, hx, ih hxs]

theorem splitChar_append {c : Char} {xs : List Char} (h : c ∉ xs)
    (ys : List Char) :
    splitChar c (xs ++ c :: ys) = xs :: splitChar c ys := by
  induction xs with
  | nil => simp [splitChar]
  | cons x xs ih =>
    have hx : ¬ x = c := fun e => h (e ▸ List.mem_cons_self x xs)
    have hxs : c ∉ xs := fun hm => h (List.mem_cons_of_mem _ hm)
    simp [splitChar, hx, ih hxs]

theorem parts_shape (org repo tag : String)
    (ho : validSeg org) (hr : validSeg repo) (ht : validSeg tag) :
    pposixParts ("/" ++ org ++ "/" ++ repo ++ "/releases/tag/" ++ tag)
      = ["/", org, repo, "releases", "tag", tag] := by
  obtain ⟨ho1, ho2, ho3⟩ := ho
  obtain ⟨hr1, hr2, hr3⟩ := hr
  obtain ⟨ht1, ht2, ht3⟩ := ht
  have hdata : ("/" ++ org ++ "/" ++ repo ++ "/releases/tag/" ++ tag).data
      = '/' :: (org.data ++ '/' :: (repo.data ++ '/' ::
          (['r','e','l','e','a','s','e','s'] ++ '/' ::
            (['t','a','g'] ++ '/' :: tag.data)))) := by
    have h1 : ("/" : String).data = ['/'] := rfl
    have h2 : ("/releases/tag/" : String).data
        = '/' :: (['r','e','l','e','a','s','e','s'] ++ '/' :: (['t','a','g'] ++ ['/'])) := rfl
    simp [String.data_append, h1, h2]
  obtain ⟨o0, os, horg⟩ := List.exists_cons_of_ne_nil ho1
  have ho0 : o0 ≠ '/' := by
    intro e
    rw [horg] at ho3
    exact ho3 (by simp [e])
  rw [horg] at ho2 ho3
  have hs4 : splitChar '/' (['t','a','g'] ++ '/' :: tag.data)
      = [['t','a','g'], tag.data] := by
    rw [splitChar_append (by decide), splitChar_of_not_mem ht3]
  have hs3 : splitChar '/' (['r','e','l','e','a','s','e','s'] ++ '/' ::
      (['t','a','g'] ++ '/' :: tag.data))
      = [['r','e','l','e','a','s','e','s'], ['t','a','g'], tag.data] := by
    rw [splitChar_append (by decide), hs4]
  have hs2 : splitChar '/' (repo.data ++ '/' ::
      (['r','e','l','e','a','s','e','s'] ++ '/' :: (['t','a','g'] ++ '/' :: tag.data)))
      = [repo.data, ['r','e','l','e','a','s','e','s'], ['t','a','g'], tag.data] := by
    rw [splitChar_append hr3, hs3]
  have hs1 : splitChar '/' ((o0 :: os) ++ '/' :: (repo.data ++ '/' ::
      (['r','e','l','e','a','s','e','s'] ++ '/' :: (['t','a','g'] ++ '/' :: tag.data))))
      = [o0 :: os, repo.data, ['r','e','l','e','a','s','e','s'], ['t','a','g'], tag.data] := by
    rw [splitChar_append ho3, hs2]
  have k0 : keepSeg ([] : List Char) = false := rfl
  have k3 : keepSeg ['r','e','l','e','a','s','e','s'] = true := rfl
  have k4 : keepSeg ['t','a','g'] = true := rfl
  have k1 : keepSeg (o0 :: os) = true := by
    simp only [keepSeg, decide_eq_true_eq]
    exact ⟨List.cons_ne_nil _ _, ho2⟩
  have k2 : keepSeg repo.data = true := by
    simp only [keepSeg, decide_eq_true_eq]
    exact ⟨hr1, hr2⟩
  have k5 : keepSeg tag.data = true := by
    simp only [keepSeg, decide_eq_true_eq]
    exact ⟨ht1, ht2⟩
  have m1 : String.mk (o0 :: os) = org := by rw [← horg]
  have m2 : String.mk repo.data = repo := rfl
  have m3 : String.mk tag.data = tag := rfl
  simp only [pposixParts, pposixSegs, hdata, horg]
  rw [show splitChar '/' ('/' :: ((o0 :: os) ++ '/' :: (repo.data ++ '/' ::
      (['r','e','l','e','a','s','e','s'] ++ '/' :: (['t','a','g'] ++ '/' :: tag.data)))))
      = [] :: splitChar '/' ((o0 :: os) ++ '/' :: (repo.data ++ '/' ::
      (['r','e','l','e','a','s','e','s'] ++ '/' :: (['t','a','g'] ++ '/' :: tag.data))))
      from by simp [splitChar]]
  rw [hs1]
  simp [pposixRoot, ho0, List.filter_cons, k0, k1, k2, k3, k4, k5, m1, m2, m3]

theorem resolveTagFromParts_ok (a b c t pathStr : String) :
    resolveTagFromParts [a, b, c, "releases", "tag", t] pathStr = Except.ok t := rfl

theorem resolveTagFromParts_err (parts : List String) (pathStr : String)
    (h : ∀ a b c t, parts ≠ [a, b, c, "releases", "tag", t]) :
    resolveTagFromParts parts pathStr
      = Except.error (InstallError.resolution pathStr) := by
  unfold resolveTagFromParts
  split
  case h_1 a b c t => exact absurd rfl (h a b c t)
  case h_2 => rfl

theorem resolveTagFromParts_ok_shape (parts : List String) (pathStr t : String)
    (h : resolveTagFromParts parts pathStr = Except.ok t) :
    ∃ a b c, parts = [a, b, c, "releases", "tag", t] := by
  by_contra hn
  push_neg at hn
  have : ∀ a b c u, parts ≠ [a, b, c, "releases", "tag", u] := by
    intro a b c u heq
    subst heq
    have := resolveTagFromParts_ok a b c u pathStr
    rw [this] at h
    cases h
    exact hn a b c rfl
  rw [resolveTagFromParts_err parts pathStr this] at h
  cases h


/-! ### Claim theorems -/

/-- C1: for every resolved URL path of the shape
`/{org}/{repo}/releases/tag/{tag}` the resolver returns exactly the
tag value, and for every path whose parts are not of that shape it
fails with the resolution error and returns no tag. -/
theorem release_resolver_tag_shape :
    (∀ org repo tag : String, validSeg org → validSeg repo → validSeg tag →
      resolveTagFromPath ("/" ++ org ++ "/" ++ repo ++ "/releases/tag/" ++ tag)
        = Except.ok tag)
    ∧ (∀ path : String,
        (∀ a b c t : String, pposixParts path ≠ [a, b, c, "releases", "tag", t]) →
        resolveTagFromPath path
          = Except.error (InstallError.resolution (pposixStr path))) := by
  constructor
  · intro org repo tag ho hr ht
    unfold resolveTagFromPath
    rw [parts_shape org repo tag ho hr ht]
    exact resolveTagFromParts_ok _ _ _ _ _
  · intro path h
    exact resolveTagFromParts_err _ _ h

theorem release_resolver_tag_shape_witness :
    resolveTagFromPath "/acme/widget/releases/tag/v9.9.9" = Except.ok "v9.9.9"
    ∧ resolveTagFromPath "/jdx/mise/releases/latest"
        = Except.error (InstallError.resolution "/jdx/mise/releases/latest") := by
  constructor
  · exact release_resolver_tag_shape.1 "acme" "widget" "v9.9.9"
      (by decide) (by decide) (by decide)
  · have h := release_resolver_tag_shape.2 "/jdx/mise/releases/latest" ?_
    · exact h.trans (by decide)
    · intro a b c t heq
      have hl := congrArg List.length heq
      simp only [List.length_cons, List.length_nil] at hl
      exact absurd hl (by decide)

/-- C2: the resolver pattern-matches the path's parts against exactly
six entries — for an absolute path the root plus five segments — and
succeeds exactly when the fourth and fifth entries are the literal
markers `releases` and `tag`, followed by the tag value; any other
shape is a hard failure with no fallback. -/
theorem release_resolver_match_exact (path : String) :
    ((∃ t, resolveTagFromPath path = Except.ok t) ↔
      (∃ a b c t, pposixParts path = [a, b, c, "releases", "tag", t]))
    ∧ (∀ a b c t : String, pposixParts path = [a, b, c, "releases", "tag", t] →
        resolveTagFromPath path = Except.ok t)
    ∧ ((∀ a b c t : String, pposixParts path ≠ [a, b, c, "releases", "tag", t]) →
        resolveTagFromPath path
          = Except.error (InstallError.resolution (pposixStr path))) := by
  refine ⟨⟨?_, ?_⟩, ?_, ?_⟩
  · rintro ⟨t, ht⟩
    obtain ⟨a, b, c, h⟩ := resolveTagFromParts_ok_shape _ _ _ ht
    exact ⟨a, b, c, t, h⟩
  · rintro ⟨a, b, c, t, h⟩
    refine ⟨t, ?_⟩
    unfold resolveTagFromPath
    rw [h]
    exact resolveTagFromParts_ok _ _ _ _ _
  · intro a b c t h
    unfold resolveTagFromPath
    rw [h]
    exact resolveTagFromParts_ok _ _ _ _ _
  · intro h
    exact resolveTagFromParts_err _ _ h

theorem release_resolver_match_exact_witness :
    resolveTagFromPath "/o/r/releases/tag/v2" = Except.ok "v2" :=
  (release_resolver_match_exact "/o/r/releases/tag/v2").2.1 "/" "o" "r" "v2" (by decide)


theorem assetName_linux_x64 (tag : String) :
    assetName tag "linux" "x64" = "mise-" ++ tag ++ "-linux-x64.tar.gz" := by
  have h1 : ("mise-" : String).data = ['m','i','s','e','-'] := rfl
  have h2 : ("-" : String).data = ['-'] := rfl
  have h3 : ("linux" : String).data = ['l','i','n','u','x'] := rfl
  have h4 : ("x64" : String).data = ['x','6','4'] := rfl
  have h5 : (".tar.gz" : String).data = ['.','t','a','r','.','g','z'] := rfl
  have h6 : ("-linux-x64.tar.gz" : String).data
      = ['-','l','i','n','u','x','-','x','6','4','.','t','a','r','.','g','z'] := rfl
  apply String.ext
  simp [assetName, String.data_append, h1, h2, h3, h4, h5, h6]

theorem assetName_linux_arm64 (tag : String) :
    assetName tag "linux" "arm64" = "mise-" ++ tag ++ "-linux-arm64.tar.gz" := by
  have h1 : ("mise-" : String).data = ['m','i','s','e','-'] := rfl
  have h2 : ("-" : String).data = ['-'] := rfl
  have h3 : ("linux" : String).data = ['l','i','n','u','x'] := rfl
  have h4 : ("arm64" : String).data = ['a','r','m','6','4'] := rfl
  have h5 : (".tar.gz" : String).data = ['.','t','a','r','.','g','z'] := rfl
  have h6 : ("-linux-arm64.tar.gz" : String).data
      = ['-','l','i','n','u','x','-','a','r','m','6','4','.','t','a','r','.','g','z'] := rfl
  apply String.ext
  simp [assetName, String.data_append, h1, h2, h3, h4, h5, h6]

/-- C3 counterexample: on an unsupported platform the installer does
fail with an unsupported-platform error, but only after the
latest-release network request has already been issued, so it does not
fail before any network call. -/
theorem unsupported_platform_after_request_cex :
    (installMise "https://github.com/jdx/mise/releases/tag/v1.0.0"
        "Darwin" "x86_64" "/home/u").result
      = Except.error (InstallError.unsupportedSystem "Darwin")
    ∧ (installMise "https://github.com/jdx/mise/releases/tag/v1.0.0"
        "Darwin" "x86_64" "/home/u").requests = [latestReleaseUrl]
    ∧ (installMise "https://github.com/jdx/mise/releases/tag/v1.0.0"
        "Darwin" "x86_64" "/home/u").requests ≠ [] := by decide

/-- C3 (amended): for every unsupported (OS, architecture) pair the
installer fails with an unsupported-platform error after the
release-resolution request but before issuing the release-asset
download request: the only request on record is the latest-release
endpoint. -/
theorem unsupported_platform_before_download
    (u s m home tag : String)
    (hres : resolveTagFromUrl u = Except.ok tag)
    (hunsup : s ≠ "Linux" ∨ (m ≠ "x86_64" ∧ m ≠ "aarch64")) :
    (installMise u s m home).requests = [latestReleaseUrl]
    ∧ ∃ e, (installMise u s m home).result = Except.error e
        ∧ e.isUnsupported = true := by
  unfold installMise
  rw [hres]
  by_cases hs : s = "Linux"
  · rcases hunsup with h | ⟨h1, h2⟩
    · exact absurd hs h
    · subst hs
      simp [mapSystem, mapMachine, h1, h2, InstallError.isUnsupported]
  · simp [mapSystem, hs, InstallError.isUnsupported]

theorem unsupported_platform_before_download_witness :
    (installMise "https://github.com/jdx/mise/releases/tag/v2025.1.1"
        "Darwin" "arm64" "/home/u").requests = [latestReleaseUrl]
    ∧ ∃ e, (installMise "https://github.com/jdx/mise/releases/tag/v2025.1.1"
        "Darwin" "arm64" "/home/u").result = Except.error e
        ∧ e.isUnsupported = true :=
  unsupported_platform_before_download
    "https://github.com/jdx/mise/releases/tag/v2025.1.1" "Darwin" "arm64"
    "/home/u" "v2025.1.1" (by decide) (Or.inl (by decide))

/-- C5: for each supported (OS, architecture) pair and every resolved
tag, the installer maps `Linux` to `linux`, `x86_64` to `x64` and
`aarch64` to `arm64` (two distinct labels), deterministically builds
the asset filename `mise-{tag}-{os}-{arch}.tar.gz`, and requests the
download URL formed from the fixed release-asset base path. -/
theorem asset_filename_construction (u home tag : String)
    (hres : resolveTagFromUrl u = Except.ok tag) :
    mapSystem "Linux" = Except.ok "linux"
    ∧ mapMachine "x86_64" = Except.ok "x64"
    ∧ mapMachine "aarch64" = Except.ok "arm64"
    ∧ ("x64" : String) ≠ "arm64"
    ∧ (installMise u "Linux" "x86_64" home).result
        = Except.ok ⟨tag, "mise-" ++ tag ++ "-linux-x64.tar.gz",
            releaseDownloadBase ++ "/" ++ tag ++ "/"
              ++ ("mise-" ++ tag ++ "-linux-x64.tar.gz"),
            [("mise/bin/mise", home ++ "/.local/bin/mise"),
             ("mise/man/man1/mise.1", home ++ "/.local/share/man/man1/mise.1")]⟩
    ∧ (installMise u "Linux" "aarch64" home).result
        = Except.ok ⟨tag, "mise-" ++ tag ++ "-linux-arm64.tar.gz",
            releaseDownloadBase ++ "/" ++ tag ++ "/"
              ++ ("mise-" ++ tag ++ "-linux-arm64.tar.gz"),
            [("mise/bin/mise", home ++ "/.local/bin/mise"),
             ("mise/man/man1/mise.1", home ++ "/.local/share/man/man1/mise.1")]⟩
    ∧ (installMise u "Linux" "x86_64" home).requests
        = [latestReleaseUrl,
           releaseDownloadBase ++ "/" ++ tag ++ "/"
             ++ ("mise-" ++ tag ++ "-linux-x64.tar.gz")] := by
  refine ⟨rfl, rfl, rfl, by decide, ?_, ?_, ?_⟩
  · unfold installMise
    rw [hres]
    simp [mapSystem, mapMachine, assetName_linux_x64, tarballUrlOf]
  · unfold installMise
    rw [hres]
    simp [mapSystem, mapMachine, assetName_linux_arm64, tarballUrlOf]
  · unfold installMise
    rw [hres]
    simp [mapSystem, mapMachine, assetName_linux_x64, tarballUrlOf]

theorem asset_filename_construction_witness :
    (installMise "https://github.com/jdx/mise/releases/tag/v7.7.7"
        "Linux" "x86_64" "/home/w").result
      = Except.ok ⟨"v7.7.7", "mise-" ++ "v7.7.7" ++ "-linux-x64.tar.gz",
          releaseDownloadBase ++ "/" ++ "v7.7.7" ++ "/"
            ++ ("mise-" ++ "v7.7.7" ++ "-linux-x64.tar.gz"),
          [("mise/bin/mise", "/home/w" ++ "/.local/bin/mise"),
           ("mise/man/man1/mise.1", "/home/w" ++ "/.local/share/man/man1/mise.1")]⟩ :=
  (asset_filename_construction "https://github.com/jdx/mise/releases/tag/v7.7.7"
    "/home/w" "v7.7.7" (by decide)).2.2.2.2.1


/-- C4 counterexample: with every config list empty and Docker (and
mise) already on the clean PATH, the run still executes commands
outside the five the claim allows — here the unconditional
`uv tool upgrade --all`. -/
theorem empty_config_run_extra_commands_cex :
    ["uv", "tool", "upgrade", "--all"]
        ∈ mainTrace "python3" "main.py" "user" emptyConfig false false
    ∧ ["uv", "tool", "upgrade", "--all"] ∉ c4Allowed := by decide

/-- C4 (amended): with every config list empty and both Docker and the
toolchain manager already resolvable on the clean PATH, the run
executes exactly the dotfiles preparation dispatch, the package index
refresh, the full upgrade, autopurge, autoclean, the store-package
refresh, the toolchain-manager self-update and upgrade, and the
runtime-manager upgrade commands — and issues no install
invocations. -/
theorem empty_config_run_trace :
    mainTrace "python3" "main.py" "user" emptyConfig false false
      = [["python3", "main.py", "prepare_dotfiles"],
         ["sudo", "apt-get", "update"],
         ["sudo", "apt-get", "-y", "dist-upgrade"],
         ["sudo", "apt-get", "-y", "autopurge"],
         ["sudo", "apt-get", "-y", "autoclean"],
         ["sudo", "snap", "refresh"],
         ["mise", "self-update", "-y"],
         ["mise", "upgrade", "--bump"],
         ["uv", "python", "upgrade"],
         ["uv", "tool", "upgrade", "--all"]]
    ∧ ((mainTrace "python3" "main.py" "user" emptyConfig false false).all
        fun cmd => !cmd.contains "install") = true := by decide

/-- C6: for every non-empty argument sequence, environment and child
exit status, the command runner fails with a `CommandError` carrying
the command and exit status exactly when the exit status is non-zero,
and returns nothing exactly when it is zero. -/
theorem command_runner_exit_status (args : List String)
    (env : List (String × String)) (ec : Int) (hne : args ≠ []) :
    (checkCall args env ec = Except.error ⟨args, ec⟩ ↔ ec ≠ 0)
    ∧ (checkCall args env ec = Except.ok () ↔ ec = 0) := by
  unfold checkCall
  by_cases he : ec = 0 <;> simp [he]

theorem command_runner_exit_status_witness :
    checkCall ["true"] [] 0 = Except.ok ()
    ∧ checkCall ["false"] [] 1 = Except.error ⟨["false"], 1⟩ :=
  ⟨(command_runner_exit_status ["true"] [] 0 (by decide)).2.mpr rfl,
   (command_runner_exit_status ["false"] [] 1 (by decide)).1.mpr (by decide)⟩

/-- C7: the environment builder returns a mapping with exactly the two
keys `PATH` and `HOME`, where `PATH` is the ordered `pathsep`-joined
concatenation of exactly the shim directory, the local-bin directory,
and the system default path — and the result does not depend on the
caller's `PATH` (or any other ambient variable), so no foreign
directory can enter it. -/
theorem clean_env_exact_keys_and_path (a : Ambient) (p : Option String)
    (o : List (String × String)) :
    (prepareCleanEnv a).map Prod.fst = ["PATH", "HOME"]
    ∧ prepareCleanEnv a
        = [("PATH", String.intercalate pathsep
            [expanduserTilde a "/.local/share/mise/shims",
             expanduserTilde a "/.local/bin",
             defpath]),
           ("HOME", expanduserTilde a "")]
    ∧ prepareCleanEnv ⟨a.envHome, a.pwdHome, p, o⟩ = prepareCleanEnv a := by
  exact ⟨rfl, rfl, rfl⟩

/-- C8: every structured `uv_tool` entry `{operand, options}` in the
configuration yields an install invocation in the run's trace in which
the options come first, then the end-of-options marker `--`, then the
operand. -/
theorem uv_tool_option_marker_operand (pyExe selfPath user : String)
    (cfg : Config) (needDocker needMise : Bool)
    (operand : String) (opts : List String)
    (h : StrOrArgument.arg ⟨operand, opts⟩ ∈ cfg.uv_tool) :
    ("uv" :: "tool" :: "install" :: (opts ++ ["--", operand]))
      ∈ mainTrace pyExe selfPath user cfg needDocker needMise := by
  have hm : ("uv" :: "tool" :: "install" :: (opts ++ ["--", operand]))
      ∈ cfg.uv_tool.map uvToolCmd := by
    refine List.mem_map.mpr ⟨StrOrArgument.arg ⟨operand, opts⟩, h, ?_⟩
    simp [uvToolCmd, ensureArgument]
  unfold mainTrace
  simp only [List.mem_append]
  tauto

theorem uv_tool_option_marker_operand_witness :
    ("uv" :: "tool" :: "install" :: (["--python", "3.12"] ++ ["--", "ruff"]))
      ∈ mainTrace "python3" "main.py" "user" ruffConfig false false :=
  uv_tool_option_marker_operand "python3" "main.py" "user" ruffConfig
    false false "ruff" ["--python", "3.12"] (by decide)

/-- C9: `_ensure_argument` is total and idempotent: a bare string
becomes the structured argument with empty options, a structured
argument passes through unchanged, and re-applying it to its own
output changes nothing. -/
theorem ensure_argument_total_idempotent :
    (∀ s, ensureArgument (StrOrArgument.str s) = ⟨s, []⟩)
    ∧ (∀ a, ensureArgument (StrOrArgument.arg a) = a)
    ∧ (∀ x, ensureArgument (StrOrArgument.arg (ensureArgument x))
        = ensureArgument x) :=
  ⟨fun _ => rfl, fun _ => rfl, fun _ => rfl⟩

theorem rstripSlashAux_shape (cs : List Char) :
    rstripSlashAux cs = [] ∨ ∃ c rest, rstripSlashAux cs = c :: rest ∧ c ≠ '/' := by
  induction cs with
  | nil => exact Or.inl rfl
  | cons c cs ih =>
    by_cases h : c = '/'
    · simpa [rstripSlashAux, h] using ih
    · exact Or.inr ⟨c, cs, by simp [rstripSlashAux, h], h⟩

theorem rstripSlash_ne_slash (s : String) : rstripSlash s ≠ "/" := by
  intro h
  have hd : (rstripSlashAux s.data.reverse).reverse = ['/'] := congrArg String.data h
  have ha : rstripSlashAux s.data.reverse = ['/'] := by
    have := congrArg List.reverse hd
    simpa using this
  rcases rstripSlashAux_shape s.data.reverse with h0 | ⟨c, rest, hcr, hc⟩
  · rw [h0] at ha
    cases ha
  · rw [hcr] at ha
    cases ha
    exact hc rfl

theorem string_append_empty (s : String) : s ++ "" = s := by
  apply String.ext
  simp [String.data_append]

/-- C10: the environment builder's output is determined solely by the
resolved home directory — any two ambient environments that expand
`~` identically produce identical mappings, whatever their `PATH` or
other variables. -/
theorem clean_env_noninterference (a1 a2 : Ambient)
    (h : expanduserTilde a1 "" = expanduserTilde a2 "") :
    prepareCleanEnv a1 = prepareCleanEnv a2 := by
  have key : rstripSlash (userhome a1) = rstripSlash (userhome a2) := by
    unfold expanduserTilde at h
    rw [string_append_empty, string_append_empty] at h
    by_cases h1 : rstripSlash (userhome a1) = ""
      <;> by_cases h2 : rstripSlash (userhome a2) = ""
    · rw [h1, h2]
    · rw [if_pos h1, if_neg h2] at h
      exact absurd h.symm (rstripSlash_ne_slash _)
    · rw [if_neg h1, if_pos h2] at h
      exact absurd h (rstripSlash_ne_slash _)
    · rw [if_neg h1, if_neg h2] at h
      exact h
  unfold prepareCleanEnv expanduserTilde
  rw [key]

theorem clean_env_noninterference_witness :
    prepareCleanEnv ambientA = prepareCleanEnv ambientB :=
  clean_env_noninterference ambientA ambientB (by decide)

end SetupUbuntu
